import Mathlib

/-!
Verification of the weather-app city store (src/main.py) against its
natural-language specification.

The embedding models the two SQLAlchemy tables (`cities`, `default_cities`)
as Lean lists of records, with the auto-increment primary keys made explicit
as counters in the database state.  Python floats (coordinates, temperatures)
are modelled as rationals; timestamps as naturals.  The SQLAlchemy column
default `updated_at = Column(DateTime, default=datetime.utcnow)` is applied
at insert time, so a freshly inserted row carries `some now` there while
`temperature` (nullable, no default) is `none`.
-/

/-- Row of the `cities` table (class `City`, src/main.py lines 16-23).
`temperature` is nullable with no default; `updated_at` is nullable with a
column default of the current time, applied on insert. -/
structure City where
  id : Nat
  name : String
  latitude : Rat
  longitude : Rat
  temperature : Option Rat
  updated_at : Option Nat
deriving Repr, DecidableEq

/-- Row of the `default_cities` table (class `DefaultCity`, src/main.py
lines 25-30). -/
structure DefaultCity where
  id : Nat
  name : String
  latitude : Rat
  longitude : Rat
deriving Repr, DecidableEq

/-- The persisted database state: the two tables in insertion order, plus
the auto-increment counters for their primary keys. -/
structure DB where
  cities : List City
  default_cities : List DefaultCity
  next_id : Nat
  next_default_id : Nat
deriving Repr, DecidableEq

/-- Insertion of `City(name=..., latitude=..., longitude=...)` followed by
commit: the store assigns the next id, `temperature` stays NULL, and the
column default sets `updated_at` to the current time. -/
def insertCity (db : DB) (name : String) (lat lon : Rat) (now : Nat) : DB :=
  { db with
    cities := db.cities ++
      [{ id := db.next_id, name := name, latitude := lat, longitude := lon,
         temperature := none, updated_at := some now }],
    next_id := db.next_id + 1 }

/-- `add_city` (POST /cities/add, src/main.py lines 73-78): constructs a
`City` from the submitted form fields and commits it.  No validation of any
kind is performed on `name`, `latitude` or `longitude`. -/
def add_city (db : DB) (name : String) (lat lon : Rat) (now : Nat) : DB :=
  insertCity db name lat lon now

/-- `db.query(City).filter(City.id == city_id).first()` followed by a
conditional delete: removes the first row whose id matches, if any. -/
def removeFirstWithId : List City → Nat → List City
  | [], _ => []
  | c :: cs, i => if c.id = i then cs else c :: removeFirstWithId cs i

/-- `remove_city` (POST /cities/remove/{city_id}, src/main.py lines 80-86):
looks up the first city with the given id and deletes it when present;
otherwise the request is a no-op. -/
def remove_city (db : DB) (city_id : Nat) : DB :=
  { db with cities := removeFirstWithId db.cities city_id }

/-- The inline `default_cities` list hardcoded in `reset_cities`
(src/main.py lines 91-97).  Note this is a local Python list, not the
persisted `default_cities` table. -/
def default_cities_data : List (String × Rat × Rat) :=
  [("London", 51.5074, -0.1278),
   ("Paris", 48.8566, 2.3522),
   ("Berlin", 52.5200, 13.4050),
   ("Rome", 41.9028, 12.4964),
   ("Madrid", 40.4168, -3.7038)]

/-- `reset_cities` (POST /cities/reset, src/main.py lines 88-101): deletes
every row of the `cities` table, then inserts one `City` per entry of the
hardcoded inline list.  The persisted `default_cities` table is not read. -/
def reset_cities (db : DB) (now : Nat) : DB :=
  default_cities_data.foldl
    (fun d p => insertCity d p.1 p.2.1 p.2.2 now)
    { db with cities := [] }

/-- `update_weather` (POST /cities/update, src/main.py lines 103-112):
iterates the tracked cities, fetches the weather per city with that city's
coordinates, and for each city where the client returned a value overwrites
`temperature` and `updated_at`; cities with no value are left untouched.
The weather client is abstracted as a function from coordinates to an
optional temperature, matching `fetch_weather`'s call shape and return. -/
def update_weather (db : DB) (client : Rat → Rat → Option Rat) (now : Nat) : DB :=
  { db with
    cities := db.cities.map fun c =>
      match client c.latitude c.longitude with
      | some t => { c with temperature := some t, updated_at := some now }
      | none => c }

/-- Outcome of the single `current_weather` field lookup inside a parsed
JSON body: `data.get("current_weather", \x7b\x7d).get("temperature")`. -/
inductive CwField where
  /-- no `current_weather` key: the default `\x7b\x7d` yields `.get = None` -/
  | missing
  /-- `current_weather` present but not a dict: `.get` raises, caught below -/
  | notObject
  /-- `current_weather` is a dict; `temperature` key optionally present -/
  | obj (temperature : Option Rat)
deriving Repr, DecidableEq

/-- The HTTP response body as `fetch_weather` consumes it. -/
inductive Body where
  /-- `response.json()` raises (malformed body) -/
  | malformed
  /-- `response.json()` returns a dict -/
  | jsonObj (cw : CwField)
deriving Repr, DecidableEq

/-- Outcome of the outbound HTTP GET in `fetch_weather`. -/
inductive FetchOutcome where
  /-- network error, timeout, or any exception raised during the request -/
  | netError
  /-- a response arrived with the given status and body -/
  | response (status : Nat) (body : Body)
deriving Repr, DecidableEq

/-- `fetch_weather` (src/main.py lines 55-65): on status 200 it parses the
body and returns `current_weather.temperature` when present; every other
path — non-200 status (implicit `return None` falling off the `if`),
network error, malformed body, missing field (all exceptions caught by the
bare `except`) — returns `None`.  Modelled as a total function: it never
raises. -/
def fetch_weather : FetchOutcome → Option Rat
  | .netError => none
  | .response status body =>
    if status = 200 then
      match body with
      | .malformed => none
      | .jsonObj .missing => none
      | .jsonObj .notObject => none
      | .jsonObj (.obj t) => t
    else
      none

/-- How the seed dataset read (`open("europe.csv", ...)` plus CSV/float
parsing, src/main.py lines 121-128) can go. -/
inductive SeedSource where
  /-- `open` raises `FileNotFoundError` -/
  | missing
  /-- the read fails with any other exception (permissions, encoding,
  malformed row) — not caught by `except FileNotFoundError` -/
  | unreadable
  /-- the dataset is read successfully as (name, latitude, longitude) rows -/
  | ok (rows : List (String × Rat × Rat))
deriving Repr, DecidableEq

/-- Append one parsed seed row to the `default_cities` table. -/
def insertDefault (db : DB) (row : String × Rat × Rat) : DB :=
  { db with
    default_cities := db.default_cities ++
      [{ id := db.next_default_id, name := row.1,
         latitude := row.2.1, longitude := row.2.2 }],
    next_default_id := db.next_default_id + 1 }

/-- `populate_default_cities` (startup hook, src/main.py lines 114-134):
if the `default_cities` table already has a row, do nothing; otherwise read
the seed dataset and insert its rows.  A `FileNotFoundError` is caught and
seeding is skipped; any other read failure propagates as an exception,
modelled as `Except.error`. -/
def populate_default_cities (db : DB) (src : SeedSource) : Except String DB :=
  if db.default_cities.isEmpty then
    match src with
    | .missing => .ok db
    | .unreadable => .error "seed dataset read failed"
    | .ok rows => .ok (rows.foldl insertDefault db)
  else
    .ok db

/-- An empty database, as after `Base.metadata.create_all` on a fresh file. -/
def dbEmpty : DB :=
  { cities := [], default_cities := [], next_id := 0, next_default_id := 0 }

/-- A database whose `default_cities` table holds a single seeded row. -/
def dbSeeded : DB :=
  { cities := [],
    default_cities := [{ id := 0, name := "X", latitude := 1, longitude := 2 }],
    next_id := 0, next_default_id := 1 }

/-- Every tracked row carries a timestamp.  This holds in every reachable
state of the code because the `updated_at` column default fires on every
insert (see `City`), which is what replaces the spec's claimed
both-present-or-both-absent invariant. -/
def allTimestamped (db : DB) : Prop :=
  ∀ c ∈ db.cities, c.updated_at.isSome

/-- A store holding a single tracked city with id 0. -/
def dbOne : DB :=
  { cities := [{ id := 0, name := "A", latitude := 1, longitude := 2,
                 temperature := none, updated_at := none }],
    default_cities := [], next_id := 1, next_default_id := 0 }

/-- A store holding three tracked cities, used for the partial-success
refresh scenario. -/
def dbThree : DB :=
  { cities := [{ id := 0, name := "A", latitude := 1, longitude := 2,
                 temperature := none, updated_at := some 0 },
               { id := 1, name := "B", latitude := 3, longitude := 4,
                 temperature := some 5, updated_at := some 6 },
               { id := 2, name := "C", latitude := 7, longitude := 8,
                 temperature := none, updated_at := some 0 }],
    default_cities := [], next_id := 3, next_default_id := 0 }

/-! ### Helper lemmas -/

lemma removeFirstWithId_not_mem (l : List City) (i : Nat)
    (h : ∀ c ∈ l, c.id ≠ i) : removeFirstWithId l i = l := by
  induction l with
  | nil => rfl
  | cons c cs ih =>
    simp only [removeFirstWithId]
    rw [if_neg (h c (List.mem_cons_self c cs)), ih fun x hx => h x (List.mem_cons_of_mem c hx)]

lemma removeFirstWithId_mem_length (l : List City) (i : Nat)
    (h : ∃ c ∈ l, c.id = i) : (removeFirstWithId l i).length + 1 = l.length := by
  induction l with
  | nil => simp at h
  | cons c cs ih =>
    by_cases hc : c.id = i
    · simp [removeFirstWithId, hc]
    · obtain ⟨d, hd, hdi⟩ := h
      rcases List.mem_cons.mp hd with rfl | hd'
      · exact absurd hdi hc
      · simp only [removeFirstWithId, if_neg hc, List.length_cons]
        exact congrArg (· + 1) (ih ⟨d, hd', hdi⟩)

lemma removeFirstWithId_split (pre : List City) (c : City) (post : List City) (i : Nat)
    (hc : c.id = i) (hpre : ∀ p ∈ pre, p.id ≠ i) :
    removeFirstWithId (pre ++ c :: post) i = pre ++ post := by
  induction pre with
  | nil => simp [removeFirstWithId, hc]
  | cons p ps ih =>
    simp only [List.cons_append, removeFirstWithId, List.append_eq]
    rw [if_neg (hpre p (List.mem_cons_self p ps)),
      ih fun q hq => hpre q (List.mem_cons_of_mem p hq)]

/-! ### Claims -/

/-- C4: `fetch_weather` never raises (it is a total function into
`Option`), returns the parsed temperature exactly when the HTTP response
has status 200 and the body carries a `current_weather.temperature` field,
and returns `none` for every other outcome — non-200 status, network
error/timeout, malformed body, missing field — so all failure classes look
identical to the caller. -/
theorem fetch_weather_spec (o : FetchOutcome) (t : Rat) :
    fetch_weather o = some t ↔
      o = FetchOutcome.response 200 (Body.jsonObj (CwField.obj (some t))) := by
  constructor
  · intro h
    match o with
    | .netError => simp [fetch_weather] at h
    | .response s b =>
      by_cases hs : s = 200
      · subst hs
        match b with
        | .malformed => simp [fetch_weather] at h
        | .jsonObj .missing => simp [fetch_weather] at h
        | .jsonObj .notObject => simp [fetch_weather] at h
        | .jsonObj (.obj tt) =>
          simp only [fetch_weather, if_pos, reduceIte] at h
          rw [h]
      · simp [fetch_weather, hs] at h
  · intro h
    subst h
    rfl

/-- Witness for C4 at a concrete successful response. -/
theorem fetch_weather_spec_witness :
    fetch_weather (FetchOutcome.response 200 (Body.jsonObj (CwField.obj (some 18.5))))
      = some 18.5 :=
  (fetch_weather_spec
    (FetchOutcome.response 200 (Body.jsonObj (CwField.obj (some 18.5)))) 18.5).2 rfl

/-- C6: `remove_city` on an id matching no tracked city is a no-op and
does not fail (the whole state, in particular the tracked list, is
unchanged); on an id that is present it deletes a row (the tracked list
shrinks by one). -/
theorem remove_city_idempotent_delete (db : DB) (i : Nat) :
    ((∀ c ∈ db.cities, c.id ≠ i) → remove_city db i = db) ∧
    ((∃ c ∈ db.cities, c.id = i) →
      (remove_city db i).cities.length + 1 = db.cities.length) := by
  constructor
  · intro h
    simp only [remove_city, removeFirstWithId_not_mem db.cities i h]
  · intro h
    simp only [remove_city]
    exact removeFirstWithId_mem_length db.cities i h

/-- Witness for C6: removing an absent id from a one-city store leaves the
state unchanged, and removing the present id shrinks the list by one. -/
theorem remove_city_idempotent_delete_witness :
    remove_city dbOne 7 = dbOne ∧
    (remove_city dbOne 0).cities.length + 1 = dbOne.cities.length :=
  ⟨(remove_city_idempotent_delete dbOne 7).1 (by decide),
   (remove_city_idempotent_delete dbOne 0).2 (by decide)⟩

/-- C10: `remove_city` deletes at most one row — the first whose id
matches — leaves every other tracked row unchanged in all fields, and
never touches the `default_cities` table. -/
theorem remove_city_frame (db : DB) (i : Nat) :
    (remove_city db i).default_cities = db.default_cities ∧
    ((∀ c ∈ db.cities, c.id ≠ i) → (remove_city db i).cities = db.cities) ∧
    (∀ pre c post, db.cities = pre ++ c :: post → c.id = i →
      (∀ p ∈ pre, p.id ≠ i) → (remove_city db i).cities = pre ++ post) := by
  refine ⟨rfl, fun h => ?_, fun pre c post hsplit hc hpre => ?_⟩
  · simp only [remove_city, removeFirstWithId_not_mem db.cities i h]
  · simp only [remove_city, hsplit, removeFirstWithId_split pre c post i hc hpre]

/-- Witness for C10: in a three-city store where the second and third rows
share the target id, only the second (the first match) is deleted; the
first and third rows survive with all fields intact. -/
theorem remove_city_frame_witness :
    (remove_city
      { cities := [{ id := 0, name := "A", latitude := 1, longitude := 2,
                     temperature := some 3, updated_at := some 4 },
                   { id := 1, name := "B", latitude := 5, longitude := 6,
                     temperature := none, updated_at := none },
                   { id := 1, name := "C", latitude := 7, longitude := 8,
                     temperature := some 9, updated_at := some 10 }],
        default_cities := [{ id := 0, name := "D", latitude := 0, longitude := 0 }],
        next_id := 2, next_default_id := 1 } 1).cities =
      [{ id := 0, name := "A", latitude := 1, longitude := 2,
         temperature := some 3, updated_at := some 4 }] ++
      [{ id := 1, name := "C", latitude := 7, longitude := 8,
         temperature := some 9, updated_at := some 10 }] :=
  (remove_city_frame
    { cities := [{ id := 0, name := "A", latitude := 1, longitude := 2,
                   temperature := some 3, updated_at := some 4 },
                 { id := 1, name := "B", latitude := 5, longitude := 6,
                   temperature := none, updated_at := none },
                 { id := 1, name := "C", latitude := 7, longitude := 8,
                   temperature := some 9, updated_at := some 10 }],
      default_cities := [{ id := 0, name := "D", latitude := 0, longitude := 0 }],
      next_id := 2, next_default_id := 1 } 1).2.2
    [{ id := 0, name := "A", latitude := 1, longitude := 2,
       temperature := some 3, updated_at := some 4 }]
    { id := 1, name := "B", latitude := 5, longitude := 6,
      temperature := none, updated_at := none }
    [{ id := 1, name := "C", latitude := 7, longitude := 8,
       temperature := some 9, updated_at := some 10 }]
    rfl rfl (by decide)

lemma map_update_none (client : Rat → Rat → Option Rat) (now : Nat) (l : List City)
    (h : ∀ c ∈ l, client c.latitude c.longitude = none) :
    (l.map fun c =>
      match client c.latitude c.longitude with
      | some t => { c with temperature := some t, updated_at := some now }
      | none => c) = l := by
  induction l with
  | nil => rfl
  | cons c cs ih =>
    simp only [List.map_cons, h c (List.mem_cons_self c cs)]
    rw [ih fun x hx => h x (List.mem_cons_of_mem c hx)]

/-- C3: `update_weather` updates exactly the cities for which the client
returned a value — each such row gets `temperature` = the value and
`updated_at` = the current time while keeping id/name/coordinates — and
leaves every row with no value completely untouched; when the client
returns `none` for every city the tracked list is identical before and
after. -/
theorem update_weather_exact_subset (db : DB) (client : Rat → Rat → Option Rat) (now : Nat) :
    (update_weather db client now).cities.length = db.cities.length ∧
    (∀ i : Nat, ∀ c : City, db.cities[i]? = some c →
      (client c.latitude c.longitude = none →
        (update_weather db client now).cities[i]? = some c) ∧
      (∀ t, client c.latitude c.longitude = some t →
        (update_weather db client now).cities[i]? =
          some { c with temperature := some t, updated_at := some now })) ∧
    ((∀ c ∈ db.cities, client c.latitude c.longitude = none) →
      (update_weather db client now).cities = db.cities) := by
  refine ⟨by simp [update_weather], fun i c hc => ⟨fun hn => ?_, fun t ht => ?_⟩, fun h => ?_⟩
  · simp [update_weather, List.getElem?_map, hc, hn]
  · simp [update_weather, List.getElem?_map, hc, ht]
  · simp only [update_weather]
    exact map_update_none client now db.cities h

/-- Witness for C3, the partial-success scenario from the spec: with three
tracked cities and a client answering only for the first and third, the
middle row is untouched and the first row gains the value and timestamp;
and with a client answering for nobody the tracked list is unchanged. -/
theorem update_weather_exact_subset_witness :
    (update_weather dbThree (fun la _ => if la = 3 then none else some 20) 9).cities[1]? =
      some { id := 1, name := "B", latitude := 3, longitude := 4,
             temperature := some 5, updated_at := some 6 } ∧
    (update_weather dbThree (fun la _ => if la = 3 then none else some 20) 9).cities[0]? =
      some { id := 0, name := "A", latitude := 1, longitude := 2,
             temperature := some 20, updated_at := some 9 } ∧
    (update_weather dbThree (fun _ _ => none) 9).cities = dbThree.cities :=
  ⟨((update_weather_exact_subset dbThree
      (fun la _ => if la = 3 then none else some 20) 9).2.1 1
      { id := 1, name := "B", latitude := 3, longitude := 4,
        temperature := some 5, updated_at := some 6 } rfl).1 (by norm_num),
   ((update_weather_exact_subset dbThree
      (fun la _ => if la = 3 then none else some 20) 9).2.1 0
      { id := 0, name := "A", latitude := 1, longitude := 2,
        temperature := none, updated_at := some 0 } rfl).2 20 (by norm_num),
   (update_weather_exact_subset dbThree (fun _ _ => none) 9).2.2
     fun c _ => rfl⟩

lemma foldl_insertDefault_length (rows : List (String × Rat × Rat)) (db : DB) :
    (rows.foldl insertDefault db).default_cities.length =
      db.default_cities.length + rows.length := by
  induction rows generalizing db with
  | nil => rfl
  | cons r rs ih =>
    rw [List.foldl_cons, ih (insertDefault db r)]
    simp only [insertDefault, List.length_append, List.length_cons, List.length_nil,
      List.length_cons]
    omega

/-- C8: seeding is a one-time guard: `populate_default_cities` does
nothing whenever the `default_cities` table is non-empty, whatever the
dataset source; and after a first successful call with a non-empty dataset
the table is non-empty (row count = the dataset's when it started empty),
so a second call with the same dataset is a no-op. -/
theorem populate_default_cities_guard (db : DB) (src : SeedSource)
    (rows : List (String × Rat × Rat)) (hrows : rows ≠ []) (db1 : DB)
    (h1 : populate_default_cities db (SeedSource.ok rows) = Except.ok db1) :
    (db.default_cities ≠ [] → populate_default_cities db src = Except.ok db) ∧
    (db.default_cities = [] → db1.default_cities.length = rows.length) ∧
    populate_default_cities db1 (SeedSource.ok rows) = Except.ok db1 := by
  have hcases : db1 = if db.default_cities.isEmpty then rows.foldl insertDefault db else db := by
    by_cases h : db.default_cities.isEmpty <;>
      simp only [populate_default_cities, h, if_true, if_false, Bool.false_eq_true,
        reduceIte, Except.ok.injEq] at h1 <;>
      simp [h, h1.symm]
  have hlen : db1.default_cities ≠ [] := by
    by_cases h : db.default_cities.isEmpty
    · rw [hcases, if_pos h]
      intro hnil
      have hl := foldl_insertDefault_length rows db
      rw [hnil] at hl
      simp only [List.length_nil] at hl
      exact hrows (List.length_eq_zero.mp
        (by omega : rows.length = 0))
    · rw [hcases, if_neg h]
      exact List.isEmpty_iff.not.mp h
  refine ⟨fun hne => ?_, fun he => ?_, ?_⟩
  · simp [populate_default_cities, List.isEmpty_iff.not.mpr hne]
  · rw [hcases, if_pos (List.isEmpty_iff.mpr he), foldl_insertDefault_length rows db, he]
    simp
  · simp [populate_default_cities, List.isEmpty_iff.not.mpr hlen]

/-- Witness for C8: seeding the empty database with a one-row dataset
inserts exactly that row, a second call on the now-seeded database is a
no-op, and a call on an already non-empty table is a no-op whatever the
source. -/
theorem populate_default_cities_guard_witness :
    dbSeeded.default_cities.length = 1 ∧
    populate_default_cities dbSeeded (SeedSource.ok [("X", 1, 2)]) = Except.ok dbSeeded ∧
    populate_default_cities dbSeeded SeedSource.unreadable = Except.ok dbSeeded :=
  ⟨(populate_default_cities_guard dbEmpty SeedSource.missing [("X", 1, 2)] (by decide)
      dbSeeded rfl).2.1 rfl,
   (populate_default_cities_guard dbEmpty SeedSource.missing [("X", 1, 2)] (by decide)
      dbSeeded rfl).2.2,
   (populate_default_cities_guard dbSeeded SeedSource.unreadable [("X", 1, 2)] (by decide)
      dbSeeded rfl).1 (by decide)⟩

/-- C9 counterexample: a dataset source that exists but cannot be read
(anything other than `FileNotFoundError`, e.g. a permission or decoding
error) is NOT skipped: `populate_default_cities` propagates the exception
instead of completing startup. -/
theorem populate_default_cities_unreadable_cex :
    populate_default_cities dbEmpty SeedSource.unreadable =
      Except.error "seed dataset read failed" := rfl

/-- C9 amended: only a missing dataset file (`FileNotFoundError`) is
logged and skipped without raising, leaving the state (in particular an
empty default table) unchanged; any other failed read of the dataset
propagates as an exception. -/
theorem populate_default_cities_missing_skips (db : DB) :
    populate_default_cities db SeedSource.missing = Except.ok db ∧
    (db.default_cities = [] →
      populate_default_cities db SeedSource.unreadable =
        Except.error "seed dataset read failed") := by
  constructor
  · by_cases h : db.default_cities.isEmpty <;> simp [populate_default_cities, h]
  · intro h
    simp [populate_default_cities, List.isEmpty_iff.mpr h]

/-- Witness for C9's amended statement at the empty database. -/
theorem populate_default_cities_missing_skips_witness :
    populate_default_cities dbEmpty SeedSource.missing = Except.ok dbEmpty ∧
    populate_default_cities dbEmpty SeedSource.unreadable =
      Except.error "seed dataset read failed" :=
  ⟨(populate_default_cities_missing_skips dbEmpty).1,
   (populate_default_cities_missing_skips dbEmpty).2 rfl⟩

lemma mem_removeFirstWithId (l : List City) (i : Nat) (c : City)
    (h : c ∈ removeFirstWithId l i) : c ∈ l := by
  induction l with
  | nil => simp [removeFirstWithId] at h
  | cons d ds ih =>
    by_cases hd : d.id = i
    · simp only [removeFirstWithId, if_pos hd] at h
      exact List.mem_cons_of_mem d h
    · simp only [removeFirstWithId, if_neg hd] at h
      rcases List.mem_cons.mp h with rfl | h'
      · exact List.mem_cons_self c ds
      · exact List.mem_cons_of_mem d (ih h')

lemma mem_reset_cities_fresh (db : DB) (now : Nat) :
    ∀ c ∈ (reset_cities db now).cities, c.temperature = none ∧ c.updated_at = some now := by
  intro c hc
  simp only [reset_cities, default_cities_data, List.foldl_cons, List.foldl_nil,
    insertCity] at hc
  simp only [List.nil_append, List.append_assoc, List.cons_append, List.nil_append,
    List.mem_cons, List.mem_singleton, List.not_mem_nil, or_false] at hc
  rcases hc with h | h | h | h | h <;> subst h <;> exact ⟨rfl, rfl⟩

/-- C1 counterexample: on a database whose `default_cities` table is empty,
`reset_cities` still creates five tracked cities (the hardcoded list), so
the tracked set does not equal the default-city set on (name, lat, lon);
moreover every created row has `updated_at` present, not absent. -/
theorem reset_cities_defaults_cex :
    (((reset_cities dbEmpty 0).cities.map fun c => (c.name, c.latitude, c.longitude)) ≠
      (dbEmpty.default_cities.map fun d => (d.name, d.latitude, d.longitude))) ∧
    ((reset_cities dbEmpty 0).cities.map fun c => c.updated_at.isSome) =
      [true, true, true, true, true] := by
  constructor
  · decide
  · decide

/-- C1 amended: `reset_cities` deletes all tracked rows and creates one
tracked city per entry of the hardcoded inline list — not the persisted
default-city table, which it neither reads nor modifies — copying that
entry's name/lat/lon, with `temperature` absent and `updated_at` set to the
reset time on every created row. -/
theorem reset_cities_amended (db : DB) (now : Nat) :
    ((reset_cities db now).cities.map fun c =>
        (c.name, c.latitude, c.longitude, c.temperature, c.updated_at)) =
      (default_cities_data.map fun p =>
        (p.1, p.2.1, p.2.2, (none : Option Rat), some now)) ∧
    (reset_cities db now).default_cities = db.default_cities :=
  ⟨rfl, rfl⟩

/-- C2 counterexample: the row persisted by `add_city` into an empty store
has `temperature` absent but `updated_at` present (the column default fires
on insert), so temperature and updatedAt are NOT both absent on a newly
added row, and the both-present-or-both-absent invariant fails. -/
theorem add_city_partial_update_cex :
    ((add_city dbEmpty "Lyon" 45.76 4.84 7).cities.map fun c =>
        (c.temperature.isSome, c.updated_at.isSome)) = [(false, true)] := by
  decide

/-- C2 amended: a row newly persisted by `add_city` has `temperature`
absent but `updated_at` already present, set to the insertion time by the
column default; the invariant that actually holds in every reachable state
is that `updated_at` is present on every tracked row — it is preserved by
`add_city`, `update_weather`, `remove_city` and `reset_cities`. -/
theorem add_city_fresh_row_amended (db : DB) (name : String) (lat lon : Rat)
    (now : Nat) (client : Rat → Rat → Option Rat) (i : Nat) :
    (∃ c, (add_city db name lat lon now).cities = db.cities ++ [c] ∧
      c.temperature = none ∧ c.updated_at = some now) ∧
    (allTimestamped db →
      allTimestamped (add_city db name lat lon now) ∧
      allTimestamped (update_weather db client now) ∧
      allTimestamped (remove_city db i) ∧
      allTimestamped (reset_cities db now)) := by
  refine ⟨⟨_, rfl, rfl, rfl⟩, fun hdb => ⟨?_, ?_, ?_, ?_⟩⟩
  · intro c hc
    rcases List.mem_append.mp hc with h | h
    · exact hdb c h
    · rcases List.mem_singleton.mp h with rfl
      rfl
  · intro c hc
    simp only [update_weather, List.mem_map] at hc
    obtain ⟨d, hd, hdc⟩ := hc
    subst hdc
    cases h : client d.latitude d.longitude with
    | none => simpa [h] using hdb d hd
    | some t => simp [h]
  · intro c hc
    exact hdb c (mem_removeFirstWithId db.cities i c hc)
  · intro c hc
    rw [(mem_reset_cities_fresh db now c hc).2]
    rfl

/-- Witness for C2's amended statement: the fresh row of a concrete add,
and preservation of the always-timestamped invariant from the empty store. -/
theorem add_city_fresh_row_amended_witness :
    (∃ c, (add_city dbEmpty "Lyon" 45.76 4.84 7).cities = dbEmpty.cities ++ [c] ∧
      c.temperature = none ∧ c.updated_at = some 7) ∧
    allTimestamped (add_city dbEmpty "Lyon" 45.76 4.84 7) :=
  ⟨(add_city_fresh_row_amended dbEmpty "Lyon" 45.76 4.84 7 (fun _ _ => none) 0).1,
   ((add_city_fresh_row_amended dbEmpty "Lyon" 45.76 4.84 7 (fun _ _ => none) 0).2
     (fun c hc => absurd hc (List.not_mem_nil c))).1⟩

/-- C5 counterexample: with empty name, latitude 1000 ∉ [-90, 90] and
longitude 2000 ∉ [-180, 180], `add_city` raises no ValidationError and
persists the row anyway. -/
theorem add_city_no_validation_cex :
    ((90 : Rat) < 1000 ∧ (180 : Rat) < 2000) ∧
    (add_city dbEmpty "" 1000 2000 0).cities =
      [{ id := 0, name := "", latitude := 1000, longitude := 2000,
         temperature := none, updated_at := some 0 }] := by
  constructor
  · constructor <;> norm_num
  · rfl

/-- C5 amended: `add_city` performs no validation at all — there is no
ValidationError path in the code — so even when the latitude or longitude
is out of range or the name is empty it persists a new row carrying exactly
the submitted values. -/
theorem add_city_no_validation (db : DB) (name : String) (lat lon : Rat) (now : Nat)
    (_h : lat < -90 ∨ 90 < lat ∨ lon < -180 ∨ 180 < lon ∨ name = "") :
    ∃ c, (add_city db name lat lon now).cities = db.cities ++ [c] ∧
      c.name = name ∧ c.latitude = lat ∧ c.longitude = lon :=
  ⟨_, rfl, rfl, rfl, rfl⟩

/-- Witness for C5's amended statement at an invalid input. -/
theorem add_city_no_validation_witness :
    ∃ c, (add_city dbEmpty "" 1000 2000 0).cities = dbEmpty.cities ++ [c] ∧
      c.name = "" ∧ c.latitude = 1000 ∧ c.longitude = 2000 :=
  add_city_no_validation dbEmpty "" 1000 2000 0 (Or.inr (Or.inl (by norm_num)))

/-- C7 counterexample: after calling `reset_cities` twice in a row on the
empty store, every tracked row has `updated_at` present (the insert-time
column default), contradicting the claim that updatedAt is absent on every
row after each call. -/
theorem reset_cities_twice_cex :
    ((reset_cities (reset_cities dbEmpty 0) 1).cities.map fun c =>
        c.updated_at.isSome) = [true, true, true, true, true] := by
  decide

/-- C7 amended: `reset_cities` is idempotent on the data the claim can
keep — calling it twice yields the same tracked-city set (names and
coordinates) after each call, with `temperature` absent on every row both
times — but `updated_at` is not absent: every row carries the time of the
reset that created it. -/
theorem reset_cities_idempotent (db : DB) (t1 t2 : Nat) :
    (((reset_cities (reset_cities db t1) t2).cities.map fun c =>
        (c.name, c.latitude, c.longitude, c.temperature)) =
      ((reset_cities db t1).cities.map fun c =>
        (c.name, c.latitude, c.longitude, c.temperature))) ∧
    (∀ c ∈ (reset_cities db t1).cities, c.temperature = none ∧ c.updated_at = some t1) ∧
    (∀ c ∈ (reset_cities (reset_cities db t1) t2).cities,
      c.temperature = none ∧ c.updated_at = some t2) :=
  ⟨rfl, mem_reset_cities_fresh db t1, mem_reset_cities_fresh (reset_cities db t1) t2⟩

/-- Witness for C7's amended statement: the London row created by the
first of two resets has no temperature and carries that reset's time. -/
theorem reset_cities_idempotent_witness :
    ({ id := 0, name := "London", latitude := 51.5074, longitude := -0.1278,
       temperature := none, updated_at := some 0 } : City).temperature = none ∧
    ({ id := 0, name := "London", latitude := 51.5074, longitude := -0.1278,
       temperature := none, updated_at := some 0 } : City).updated_at = some 0 :=
  (reset_cities_idempotent dbEmpty 0 1).2.1
    { id := 0, name := "London", latitude := 51.5074, longitude := -0.1278,
      temperature := none, updated_at := some 0 }
    (show _ ∈ _ from List.mem_cons_self _ _)
